import Mathlib

/-!
Verification of `src/Atenuacion.py`.

The script holds three hardcoded lists of (energy, attenuation) pairs,
unzips each into parallel sequences, draws three curves with
`plt.semilogy`, sets labels/legend/ticks/margins, saves the figure to
`atenuacion_materiales.png` and `atenuacion_materiales.pdf`, and shows it.

The embedding models the numeric literals exactly as rationals, and the
sequence of `plt.*` calls as a list of statements interpreted over an
explicit figure state.  File output is modelled by an abstract rendering
function `FigState → String → List ℕ` (matplotlib derives the format from
the filename handed to `savefig`), and library failures by a function
assigning to each call an optional error.
-/

namespace Atenuacion

/-- `material1` (src/Atenuacion.py lines 4-16): 11 pairs for aluminium. -/
def material1 : List (ℚ × ℚ) :=
  [(1.000, 0.3200),
   (1.500, 0.1086),
   (1.560, 0.09777),
   (1.500, 1.068),
   (2.000, 0.6110),
   (3.000, 0.2128),
   (4.000, 0.09734),
   (5.000, 0.05222),
   (6.000, 0.03113),
   (8.000, 0.01359),
   (10.00, 0.0007077)]

/-- `material2` (src/Atenuacion.py lines 18-33): 14 pairs for copper. -/
def material2 : List (ℚ × ℚ) :=
  [(1.000, 9.090),
   (1.047, 8.026),
   (1.096, 7.091),
   (1.096, 8.037),
   (1.500, 3.799),
   (2.000, 1.852),
   (3.000, 0.6440),
   (4.000, 0.2987),
   (5.000, 0.1633),
   (6.000, 0.09942),
   (8.000, 0.04519),
   (8.979, 0.03293),
   (8.979, 0.2393),
   (10.00, 0.1858)]

/-- `material3` (src/Atenuacion.py lines 35-45): 9 pairs for mylar. -/
def material3 : List (ℚ × ℚ) :=
  [(1.000, 0.4017),
   (1.050, 0.1316),
   (2.000, 0.05804),
   (3.000, 0.01777),
   (4.000, 0.007542),
   (5.000, 0.003853),
   (6.000, 0.002219),
   (8.000, 0.0009315),
   (10.00, 0.0004805)]

/-- `energias1, atenuaciones1 = zip(*material1)` (line 48), first component. -/
def energias1 : List ℚ := material1.unzip.1

/-- `energias1, atenuaciones1 = zip(*material1)` (line 48), second component. -/
def atenuaciones1 : List ℚ := material1.unzip.2

/-- `energias2, atenuaciones2 = zip(*material2)` (line 49), first component. -/
def energias2 : List ℚ := material2.unzip.1

/-- `energias2, atenuaciones2 = zip(*material2)` (line 49), second component. -/
def atenuaciones2 : List ℚ := material2.unzip.2

/-- `energias3, atenuaciones3 = zip(*material3)` (line 50), first component. -/
def energias3 : List ℚ := material3.unzip.1

/-- `energias3, atenuaciones3 = zip(*material3)` (line 50), second component. -/
def atenuaciones3 : List ℚ := material3.unzip.2

/-- The colors named in the three `plt.semilogy` calls. -/
inductive Color
  | red
  | blue
  | green
deriving DecidableEq

/-- One curve on the figure, as produced by a `plt.semilogy` call. -/
structure Curve where
  xs : List ℚ
  ys : List ℚ
  label : String
  color : Color

/-- One `plt.*` call of the script, with its arguments. -/
inductive Stmt
  | semilogy (xs ys : List ℚ) (label : String) (color : Color)
  | xlabel (text : String) (fontsize : ℕ)
  | ylabel (text : String) (fontsize : ℕ)
  | legend (fontsize : ℕ)
  | xticks (fontsize : ℕ)
  | yticks (fontsize : ℕ)
  | subplotsAdjust (left bottom : ℚ)
  | savefig (fname : String)
  | showFig

/-- The script body, lines 53-74 of src/Atenuacion.py, in source order. -/
def script : List Stmt :=
  [Stmt.semilogy energias1 atenuaciones1 "Aluminio" Color.red,
   Stmt.semilogy energias2 atenuaciones2 "Cobre" Color.blue,
   Stmt.semilogy energias3 atenuaciones3 "Mylar" Color.green,
   Stmt.xlabel "Energía (keV)" 14,
   Stmt.ylabel "Atenuación (µm$^{-1}$)" 14,
   Stmt.legend 12,
   Stmt.xticks 13,
   Stmt.yticks 13,
   Stmt.subplotsAdjust 0.15 0.15,
   Stmt.savefig "atenuacion_materiales.png",
   Stmt.savefig "atenuacion_materiales.pdf",
   Stmt.showFig]

/-- The Python module as a function of its process inputs: the source reads
neither command-line arguments nor environment variables, so the statement
list it executes is `script` for every input. -/
def main (_args : List String) (_env : String → Option String) : List Stmt :=
  script

/-- State of the current pyplot figure. -/
structure FigState where
  curves : List Curve
  ylog : Bool
  xlog : Bool
  xlabelText : Option (String × ℕ)
  ylabelText : Option (String × ℕ)
  legendOn : Option ℕ
  xtickSize : Option ℕ
  ytickSize : Option ℕ
  margins : Option (ℚ × ℚ)

/-- The fresh figure pyplot starts with: no curves, both axes linear. -/
def FigState.init : FigState :=
  ⟨[], false, false, none, none, none, none, none, none⟩

/-- Effect of one statement on the figure state.  `semilogy` appends a curve
and sets the vertical axis logarithmic; `savefig` and `show` leave the
figure unchanged. -/
def step (fig : FigState) : Stmt → FigState
  | Stmt.semilogy xs ys lab c =>
      { fig with curves := fig.curves ++ [⟨xs, ys, lab, c⟩], ylog := true }
  | Stmt.xlabel t s => { fig with xlabelText := some (t, s) }
  | Stmt.ylabel t s => { fig with ylabelText := some (t, s) }
  | Stmt.legend s => { fig with legendOn := some s }
  | Stmt.xticks s => { fig with xtickSize := some s }
  | Stmt.yticks s => { fig with ytickSize := some s }
  | Stmt.subplotsAdjust l b => { fig with margins := some (l, b) }
  | Stmt.savefig _ => fig
  | Stmt.showFig => fig

/-- The figure state after the whole script has run. -/
def finalFig : FigState := script.foldl step FigState.init

/-- The file writes a statement list performs, in order: each `savefig name`
writes `name` with the bytes `r fig name`, where `r` is the charting
library's renderer (the format is derived from the filename) and `fig` the
figure state at that call.  No other statement writes a file. -/
def runWrites (r : FigState → String → List ℕ) : FigState → List Stmt → List (String × List ℕ)
  | _, [] => []
  | fig, Stmt.savefig name :: rest => (name, r fig name) :: runWrites r fig rest
  | fig, s :: rest => runWrites r (step fig s) rest

/-- The file writes of one run of the script under renderer `r`. -/
def writes (r : FigState → String → List ℕ) : List (String × List ℕ) :=
  runWrites r FigState.init script

/-- Overwrite one file of a file system (filename-indexed content map). -/
def writeFile (fs : String → Option (List ℕ)) (name : String) (content : List ℕ) :
    String → Option (List ℕ) :=
  fun m => if m = name then some content else fs m

/-- Apply a list of file writes to a file system, in order. -/
def applyWrites (fs : String → Option (List ℕ)) :
    List (String × List ℕ) → (String → Option (List ℕ))
  | [] => fs
  | (n, c) :: ws => applyWrites (writeFile fs n c) ws

/-- A trivial concrete renderer producing one byte for every figure and
filename, used to instantiate theorems quantified over renderers. -/
def oneByte : FigState → String → List ℕ :=
  fun _ _ => [1]

/-- Execution when the charting library may raise: `lib` assigns each call
either `none` (success) or `some e` (an exception with message `e`).  The
script has no handler, so execution stops at the first error and the error
propagates; on success the list of executed statements is returned. -/
def runExcept (lib : Stmt → Option String) : List Stmt → Except String (List Stmt)
  | [] => Except.ok []
  | s :: rest =>
      match lib s with
      | some e => Except.error e
      | none => (runExcept lib rest).map (fun l => s :: l)

theorem runExcept_ok_of_no_error (lib : Stmt → Option String) :
    ∀ l : List Stmt, (∀ s ∈ l, lib s = none) → runExcept lib l = Except.ok l := by
  intro l
  induction l with
  | nil => intro _; rfl
  | cons s rest ih =>
      intro h
      have hs : lib s = none := h s (List.mem_cons_self s rest)
      have hrest : runExcept lib rest = Except.ok rest :=
        ih fun t ht => h t (List.mem_cons_of_mem s ht)
      simp [runExcept, hs, hrest, Except.map]

theorem runExcept_error_split (lib : Stmt → Option String) :
    ∀ (l : List Stmt) (e : String), runExcept lib l = Except.error e →
      ∃ l₁ s l₂, l = l₁ ++ s :: l₂ ∧ lib s = some e ∧ ∀ t ∈ l₁, lib t = none := by
  intro l
  induction l with
  | nil => intro e h; simp [runExcept] at h
  | cons s rest ih =>
      intro e h
      cases hs : lib s with
      | some e' =>
          have he : e' = e := by simpa [runExcept, hs] using h
          exact ⟨[], s, rest, by simp, by rw [hs, he], by simp⟩
      | none =>
          simp only [runExcept, hs] at h
          cases hr : runExcept lib rest with
          | ok l' => rw [hr] at h; simp [Except.map] at h
          | error e' =>
              rw [hr] at h
              have he : e' = e := by simpa [Except.map] using h
              subst he
              obtain ⟨l₁, t, l₂, hsplit, ht, hpre⟩ := ih e' hr
              refine ⟨s :: l₁, t, l₂, by simp [hsplit], ht, ?_⟩
              intro u hu
              rcases List.mem_cons.mp hu with h1 | h2
              · rw [h1]; exact hs
              · exact hpre u h2

theorem unzip_align {α β : Type} (l : List (α × β)) (i : ℕ) :
    (l.unzip.1)[i]? = l[i]?.map Prod.fst ∧ (l.unzip.2)[i]? = l[i]?.map Prod.snd := by
  constructor <;> simp [List.unzip_eq_map, List.getElem?_map]

/-- C1: for each of the three pair lists, unzipping preserves length, order
and index alignment (the i-th energy and attenuation are the components of
the i-th pair), and material1 has 11 pairs with first energy 1.000 and
first attenuation 0.320. -/
theorem c1_unzip_alignment :
    (energias1.length = material1.length ∧ atenuaciones1.length = material1.length ∧
      ∀ i : ℕ, energias1[i]? = material1[i]?.map Prod.fst ∧
        atenuaciones1[i]? = material1[i]?.map Prod.snd) ∧
    (energias2.length = material2.length ∧ atenuaciones2.length = material2.length ∧
      ∀ i : ℕ, energias2[i]? = material2[i]?.map Prod.fst ∧
        atenuaciones2[i]? = material2[i]?.map Prod.snd) ∧
    (energias3.length = material3.length ∧ atenuaciones3.length = material3.length ∧
      ∀ i : ℕ, energias3[i]? = material3[i]?.map Prod.fst ∧
        atenuaciones3[i]? = material3[i]?.map Prod.snd) ∧
    material1.length = 11 ∧
    energias1.head? = some 1.000 ∧ atenuaciones1.head? = some 0.320 := by
  refine ⟨⟨rfl, rfl, fun i => unzip_align material1 i⟩,
          ⟨rfl, rfl, fun i => unzip_align material2 i⟩,
          ⟨rfl, rfl, fun i => unzip_align material3 i⟩, rfl, rfl, ?_⟩
  show some (0.3200 : ℚ) = some 0.320
  norm_num

/-- C2: every attenuation value (second pair component) of the three
material lists is strictly positive. -/
theorem c2_attenuations_pos :
    ∀ p ∈ material1 ++ material2 ++ material3, (0 : ℚ) < p.2 := by
  intro p hp
  fin_cases hp <;> norm_num

theorem c2_attenuations_pos_witness :
    ((1.000, 0.3200) : ℚ × ℚ) ∈ material1 ++ material2 ++ material3 ∧
      (0 : ℚ) < ((1.000, 0.3200) : ℚ × ℚ).2 :=
  ⟨by simp [material1], c2_attenuations_pos (1.000, 0.3200) (by simp [material1])⟩

/-- C3: one run writes exactly the two files `atenuacion_materiales.png`
and `atenuacion_materiales.pdf` (relative names: no path separator, so the
current working directory), in that order and nothing else; both contents
are renderings of the same final figure, in the format each filename
selects, and are non-empty whenever the renderer never produces empty
output. -/
theorem c3_two_output_files (r : FigState → String → List ℕ)
    (hr : ∀ fig name, r fig name ≠ []) :
    writes r = [("atenuacion_materiales.png", r finalFig "atenuacion_materiales.png"),
                ("atenuacion_materiales.pdf", r finalFig "atenuacion_materiales.pdf")] ∧
    "atenuacion_materiales.png" ≠ "atenuacion_materiales.pdf" ∧
    '/' ∉ "atenuacion_materiales.png".data ∧
    '/' ∉ "atenuacion_materiales.pdf".data ∧
    ∀ w ∈ writes r, w.2 ≠ [] := by
  have hw : writes r =
      [("atenuacion_materiales.png", r finalFig "atenuacion_materiales.png"),
       ("atenuacion_materiales.pdf", r finalFig "atenuacion_materiales.pdf")] := rfl
  refine ⟨hw, by decide, by decide, by decide, ?_⟩
  intro w hwmem
  rw [hw] at hwmem
  rcases List.mem_cons.mp hwmem with h | h
  · rw [h]; exact hr _ _
  · rcases List.mem_cons.mp h with h2 | h2
    · rw [h2]; exact hr _ _
    · simp at h2

theorem c3_two_output_files_witness :
    (∀ fig name, oneByte fig name ≠ []) ∧
    (writes oneByte =
        [("atenuacion_materiales.png", [1]), ("atenuacion_materiales.pdf", [1])] ∧
      "atenuacion_materiales.png" ≠ "atenuacion_materiales.pdf" ∧
      '/' ∉ "atenuacion_materiales.png".data ∧
      '/' ∉ "atenuacion_materiales.pdf".data ∧
      ∀ w ∈ writes oneByte, w.2 ≠ []) :=
  ⟨fun _ _ => by simp [oneByte], c3_two_output_files oneByte (fun _ _ => by simp [oneByte])⟩

/-- C4: the final figure holds exactly three curves on one shared chart,
its vertical axis is logarithmic and its horizontal axis linear, and the
three curves carry pairwise distinct colors and pairwise distinct legend
labels. -/
theorem c4_three_curves_logy :
    finalFig.curves.length = 3 ∧
    finalFig.ylog = true ∧
    finalFig.xlog = false ∧
    (finalFig.curves.map Curve.color).Pairwise (fun a b => a ≠ b) ∧
    (finalFig.curves.map Curve.label).Pairwise (fun a b => a ≠ b) := by
  refine ⟨rfl, rfl, rfl, ?_, ?_⟩
  · have h : finalFig.curves.map Curve.color = [Color.red, Color.blue, Color.green] := rfl
    rw [h]
    simp [List.pairwise_cons]
  · have h : finalFig.curves.map Curve.label = ["Aluminio", "Cobre", "Mylar"] := rfl
    rw [h]
    simp [List.pairwise_cons]

/-- C5: each of the three material lists is a non-empty sequence of
rational pairs, and the data the final figure holds is exactly the unzip
of the original literal lists: nothing between construction and use
changes them. -/
theorem c5_nonempty_never_mutated :
    0 < material1.length ∧ 0 < material2.length ∧ 0 < material3.length ∧
    finalFig.curves.map (fun c => (c.xs, c.ys)) =
      [material1.unzip, material2.unzip, material3.unzip] :=
  ⟨by decide, by decide, by decide, rfl⟩

/-- C6: the program reads no input (its statement list is the same for all
command-line arguments and environments), and running it twice leaves any
file system in the same state as running it once: the second run overwrites
the two output files with the same content. -/
theorem c6_deterministic_idempotent :
    (∀ (args args' : List String) (env env' : String → Option String),
        main args env = main args' env') ∧
    (∀ (r : FigState → String → List ℕ) (fs : String → Option (List ℕ)),
        applyWrites (applyWrites fs (writes r)) (writes r) = applyWrites fs (writes r)) := by
  refine ⟨fun _ _ _ _ => rfl, fun r fs => ?_⟩
  have hw : writes r =
      [("atenuacion_materiales.png", r finalFig "atenuacion_materiales.png"),
       ("atenuacion_materiales.pdf", r finalFig "atenuacion_materiales.pdf")] := rfl
  rw [hw]
  funext m
  simp only [applyWrites, writeFile]
  by_cases h1 : m = "atenuacion_materiales.pdf" <;>
    by_cases h2 : m = "atenuacion_materiales.png" <;> simp [h1, h2]

/-- C7: with no handler anywhere, a run in which the charting library never
raises executes the whole script and returns it; and any error the library
raises is exactly what the run terminates with, after the error-free prefix
and with nothing after the failing call executed. -/
theorem c7_no_handler_error_propagation (lib : Stmt → Option String) :
    ((∀ s ∈ script, lib s = none) → runExcept lib script = Except.ok script) ∧
    (∀ e : String, runExcept lib script = Except.error e →
      ∃ l₁ s l₂, script = l₁ ++ s :: l₂ ∧ lib s = some e ∧ ∀ t ∈ l₁, lib t = none) :=
  ⟨runExcept_ok_of_no_error lib script, fun e h => runExcept_error_split lib script e h⟩

theorem c7_no_handler_error_propagation_witness :
    runExcept (fun _ => (none : Option String)) script = Except.ok script :=
  (c7_no_handler_error_propagation (fun _ => none)).1 (fun _ _ => rfl)

/-- C8: material2 has exactly 14 pairs, material3 exactly 9, and the three
lists have pairwise different lengths (11, 14, 9). -/
theorem c8_material_lengths :
    material2.length = 14 ∧ material3.length = 9 ∧ material1.length = 11 ∧
    material1.length ≠ material2.length ∧ material2.length ≠ material3.length ∧
    material1.length ≠ material3.length :=
  ⟨rfl, rfl, rfl, by decide, by decide, by decide⟩

/-- C9: the energy sequences are not strictly increasing: in material1 the
pair (1.560, 0.09777) is immediately followed by (1.500, 1.068), an energy
decrease; material2 repeats the energy 1.096 at consecutive indices 2 and 3
and the energy 8.979 at consecutive indices 11 and 12, with different
attenuations each time. -/
theorem c9_energies_not_strictly_increasing :
    material1[2]? = some ((1.560, 0.09777) : ℚ × ℚ) ∧
    material1[3]? = some ((1.500, 1.068) : ℚ × ℚ) ∧
    (1.500 : ℚ) < 1.560 ∧
    ¬ List.Chain' (fun a b => a < b) energias1 ∧
    material2[2]? = some ((1.096, 7.091) : ℚ × ℚ) ∧
    material2[3]? = some ((1.096, 8.037) : ℚ × ℚ) ∧
    (7.091 : ℚ) ≠ 8.037 ∧
    material2[11]? = some ((8.979, 0.03293) : ℚ × ℚ) ∧
    material2[12]? = some ((8.979, 0.2393) : ℚ × ℚ) ∧
    (0.03293 : ℚ) ≠ 0.2393 ∧
    ¬ List.Chain' (fun a b => a < b) energias2 := by
  refine ⟨rfl, rfl, by norm_num, ?_, rfl, rfl, by norm_num, rfl, rfl, by norm_num, ?_⟩
  · show ¬ List.Chain' (fun a b => a < b)
      [(1.000 : ℚ), 1.500, 1.560, 1.500, 2.000, 3.000, 4.000, 5.000, 6.000, 8.000, 10.00]
    norm_num [List.chain'_cons]
  · show ¬ List.Chain' (fun a b => a < b)
      [(1.000 : ℚ), 1.047, 1.096, 1.096, 1.500, 2.000, 3.000, 4.000, 5.000, 6.000,
       8.000, 8.979, 8.979, 10.00]
    norm_num [List.chain'_cons]

/-- C10: the curves are plotted in the fixed order material1, material2,
material3, with labels Aluminio (red), Cobre (blue), Mylar (green). -/
theorem c10_fixed_labels_colors :
    finalFig.curves =
      [⟨energias1, atenuaciones1, "Aluminio", Color.red⟩,
       ⟨energias2, atenuaciones2, "Cobre", Color.blue⟩,
       ⟨energias3, atenuaciones3, "Mylar", Color.green⟩] :=
  rfl

end Atenuacion
